import Mathlib

/-!
Verification of the correlated request/reply orchestration layer of the
tapi_llm_bot repository, as a shallow embedding in Lean 4.

Pure fragments of the Python services are translated into executable Lean
definitions; stateful handlers become explicit state-passing functions.
Python `dict`s are modelled as association lists with dict semantics
(unique keys by construction, assignment replaces in place, `pop` removes),
`asyncio.Future` objects as an identifier plus an explicit state, floats as
rationals, and external effects (HTTP fetches, the LLM, the Kafka client
`start()` call) as explicit function parameters of the step being modelled.
-/

set_option autoImplicit false

namespace TapiBot

/-- Message-bus topic names. The module `shared/topics.py` is not part of the
sources under review (only its importers are), so topic names are modelled
from the spec as opaque distinct constants, one per logical topic. -/
inductive Topic where
  | summaryRequest
  | newsRequest
  | quotesRequest
  | portfolioRequest
  | portfolioUpdated
  | quotesUpdated
  | notificationsOutbound
  | dailyRequest
  deriving DecidableEq, Repr

/-- Python truthiness of an optional string (`None` and `""` are falsy). -/
def strTruthy : Option String → Bool
  | none => false
  | some s => !(s == "")

/-- Python truthiness of an optional integer (`None` and `0` are falsy). -/
def natTruthy : Option Nat → Bool
  | none => false
  | some n => !(n == 0)

/-- Lookup in a Python dict modelled as an association list
(first entry with the key, as dict keys are unique). -/
def dictGet {V : Type} : List (String × V) → String → Option V
  | [], _ => none
  | (k, v) :: rest, c => if k = c then some v else dictGet rest c

/-- Python dict assignment `d[c] = v`: replace the entry in place if the key
is present, otherwise append it. -/
def dictSet {V : Type} : List (String × V) → String → V → List (String × V)
  | [], c, v => [(c, v)]
  | (k, v0) :: rest, c, v =>
    if k = c then (c, v) :: rest else (k, v0) :: dictSet rest c v

/-- Python `d.pop(c, None)`: return the entry for the key (if any) and the
dict without it; absent keys leave the dict unchanged and raise nothing. -/
def dictPop {V : Type} : List (String × V) → String → Option V × List (String × V)
  | [], _ => (none, [])
  | (k, v) :: rest, c =>
    if k = c then (some v, rest)
    else
      let r := dictPop rest c
      (r.1, (k, v) :: r.2)

/-- State of an `asyncio.Future`: freshly created, resolved by
`set_result(True)`, or cancelled by a timed-out `asyncio.wait_for`. -/
inductive FutState where
  | pending
  | resolvedTrue
  | cancelled
  deriving DecidableEq, Repr

/-- A waiter in `pending_portfolio_updates`: the future object (identified by
`fid`, so that distinct `create_future()` calls are distinguishable) and its
state. -/
structure Waiter where
  fid : Nat
  state : FutState
  deriving DecidableEq, Repr

/-- The registry `pending_portfolio_updates : dict[str, asyncio.Future]` of
`bot_gateway/main.py`. -/
abbrev Registry := List (String × Waiter)

/-- Waiter registration in `accounts_done` / `show_portfolio`
(bot_gateway/main.py lines 267-268 and 392-393):
`fut = asyncio.get_event_loop().create_future()` followed by
`pending_portfolio_updates[corr_id] = fut`. `freshFid` is the identity of the
newly created future. The assignment is a plain dict store: there is no
membership check and no failure outcome. -/
def registerWaiter (reg : Registry) (corrId : String) (freshFid : Nat) : Registry :=
  dictSet reg corrId ⟨freshFid, FutState.pending⟩

/-- What one `portfolio.updated` event did to the waiter it addressed. -/
inductive ResolveAction where
  | noEntry
  | resolvedFut (fid : Nat)
  | skippedDone (fid : Nat)
  deriving DecidableEq, Repr

/-- Body of `portfolio_updated_consumer` (bot_gateway/main.py lines 594-604)
for one received event: skip events without a truthy correlation id, then
`fut = pending_portfolio_updates.pop(corr_id, None)` and
`if fut and not fut.done(): fut.set_result(True)`.
Returns the registry after the event plus what happened to the future. -/
def handle_portfolio_updated (reg : Registry) (corrId : Option String) :
    Registry × ResolveAction :=
  match corrId with
  | none => (reg, ResolveAction.noEntry)
  | some c =>
    if c = "" then (reg, ResolveAction.noEntry)
    else
      match dictPop reg c with
      | (none, reg2) => (reg2, ResolveAction.noEntry)
      | (some w, reg2) =>
        if w.state = FutState.pending then (reg2, ResolveAction.resolvedFut w.fid)
        else (reg2, ResolveAction.skippedDone w.fid)

/-- Effect on the registry of `asyncio.wait_for(pending_portfolio_updates.get(corr_id), timeout=15.0)`
reaching its deadline (bot_gateway/main.py lines 276 and 400): `wait_for`
cancels the still-pending future it was awaiting and raises `TimeoutError`
(swallowed by the surrounding `except Exception: pass`). Nothing removes the
entry from `pending_portfolio_updates`. -/
def timeoutWaiter : Registry → String → Registry
  | [], _ => []
  | (k, w) :: rest, corrId =>
    (if k = corrId ∧ w.state = FutState.pending
     then (k, ⟨w.fid, FutState.cancelled⟩)
     else (k, w)) :: timeoutWaiter rest corrId

theorem dictPop_of_get_none {V : Type} (d : List (String × V)) (c : String)
    (h : dictGet d c = none) : dictPop d c = (none, d) := by
  induction d with
  | nil => rfl
  | cons kv rest ih =>
    obtain ⟨k, v⟩ := kv
    by_cases hk : k = c
    · simp [dictGet, hk] at h
    · simp [dictGet, hk] at h
      simp [dictPop, hk, ih h]

theorem dictGet_dictSet_self {V : Type} (d : List (String × V)) (c : String) (v : V) :
    dictGet (dictSet d c v) c = some v := by
  induction d with
  | nil => simp [dictSet, dictGet]
  | cons kv rest ih =>
    obtain ⟨k, v0⟩ := kv
    by_cases hk : k = c
    · simp [dictSet, hk, dictGet]
    · simp [dictSet, hk, dictGet, ih]

theorem dictPop_fst_of_get_some {V : Type} (d : List (String × V)) (c : String) (v : V)
    (h : dictGet d c = some v) : (dictPop d c).1 = some v := by
  induction d with
  | nil => simp [dictGet] at h
  | cons kv rest ih =>
    obtain ⟨k, v0⟩ := kv
    by_cases hk : k = c
    · simp [dictGet, hk] at h
      simp [dictPop, hk, h]
    · simp [dictGet, hk] at h
      simp [dictPop, hk, ih h]

theorem dictGet_eq_none_of_not_mem {V : Type} (d : List (String × V)) (c : String)
    (h : c ∉ d.map Prod.fst) : dictGet d c = none := by
  induction d with
  | nil => rfl
  | cons kv rest ih =>
    obtain ⟨k, v⟩ := kv
    simp only [List.map_cons, List.mem_cons] at h
    push_neg at h
    simp [dictGet, fun hk : k = c => h.1 hk.symm, ih h.2]
    intro hk
    exact absurd hk.symm h.1

theorem dictGet_dictPop_snd {V : Type} (d : List (String × V)) (c : String)
    (hnd : (d.map Prod.fst).Nodup) : dictGet (dictPop d c).2 c = none := by
  induction d with
  | nil => rfl
  | cons kv rest ih =>
    obtain ⟨k, v⟩ := kv
    simp only [List.map_cons, List.nodup_cons] at hnd
    by_cases hk : k = c
    · subst hk
      simp only [dictPop, if_pos rfl]
      exact dictGet_eq_none_of_not_mem rest k hnd.1
    · simp [dictPop, hk, dictGet, ih hnd.2]

theorem timeoutWaiter_keys (reg : Registry) (c : String) :
    (timeoutWaiter reg c).map Prod.fst = reg.map Prod.fst := by
  induction reg with
  | nil => rfl
  | cons kw rest ih =>
    obtain ⟨k, w⟩ := kw
    by_cases h : k = c ∧ w.state = FutState.pending
    · simp [timeoutWaiter, h, ih]
    · simp [timeoutWaiter, h, ih]

theorem dictGet_timeoutWaiter_of_pending (reg : Registry) (c : String) (fid : Nat)
    (h : dictGet reg c = some ⟨fid, FutState.pending⟩) :
    dictGet (timeoutWaiter reg c) c = some ⟨fid, FutState.cancelled⟩ := by
  induction reg with
  | nil => simp [dictGet] at h
  | cons kw rest ih =>
    obtain ⟨k, w⟩ := kw
    by_cases hk : k = c
    · subst hk
      rw [dictGet, if_pos rfl] at h
      have hw : w = ⟨fid, FutState.pending⟩ := Option.some.inj h
      subst hw
      rw [timeoutWaiter, if_pos ⟨rfl, rfl⟩, dictGet, if_pos rfl]
    · rw [dictGet, if_neg hk] at h
      have hcond : ¬(k = c ∧ w.state = FutState.pending) := fun hc => hk hc.1
      rw [timeoutWaiter, if_neg hcond, dictGet, if_neg hk]
      exact ih h

theorem dictSet_dictSet {V : Type} (d : List (String × V)) (c : String) (v0 v1 : V) :
    dictSet (dictSet d c v0) c v1 = dictSet d c v1 := by
  induction d with
  | nil => simp [dictSet]
  | cons kv rest ih =>
    obtain ⟨k, v⟩ := kv
    by_cases hk : k = c
    · simp [dictSet, hk]
    · simp [dictSet, hk, ih]

/-- C3: delivering a `portfolio.updated` event whose correlation id has no
entry in `pending_portfolio_updates` raises nothing (the `pop` uses a `None`
default and the only conditional effect is guarded by the popped value) and
returns the registry unchanged, so every other pending waiter is untouched
and still resolvable. -/
theorem C3_unknown_correlation_dropped (reg : Registry) (c : String)
    (h : dictGet reg c = none) :
    handle_portfolio_updated reg (some c) = (reg, ResolveAction.noEntry) := by
  by_cases hc : c = ""
  · simp [handle_portfolio_updated, hc]
  · simp [handle_portfolio_updated, hc, dictPop_of_get_none reg c h]

theorem C3_witness :
    dictGet [("a", (⟨0, FutState.pending⟩ : Waiter))] "b" = none ∧
    handle_portfolio_updated [("a", (⟨0, FutState.pending⟩ : Waiter))] (some "b")
      = ([("a", ⟨0, FutState.pending⟩)], ResolveAction.noEntry) :=
  ⟨by decide, C3_unknown_correlation_dropped _ "b" (by decide)⟩

/-- C1 counterexample: register a waiter for correlation id "c" and let the
bounded wait time out. Contrary to the claim, the waiter is NOT removed from
the pending-waiters registry by the timeout (only `portfolio_updated_consumer`
ever pops entries), and a subsequent resolve attempt for the same id still
finds the stale entry, so it is not a no-op. -/
theorem C1_counterexample :
    dictGet (timeoutWaiter (registerWaiter [] "c" 0) "c") "c" ≠ none ∧
    (handle_portfolio_updated (timeoutWaiter (registerWaiter [] "c" 0) "c") (some "c")).2
      ≠ ResolveAction.noEntry := by
  decide

/-- C1 amended: when the bounded 15-second wait for a registered pending
waiter times out, `asyncio.wait_for` cancels the future but the waiter stays
in the registry with its entry intact (now cancelled); a subsequent resolve
attempt for the same correlation id still finds the entry — it removes it at
that point and skips `set_result` because the future is already done. -/
theorem C1_timeout_leaves_waiter (reg : Registry) (c : String) (fid : Nat)
    (hnd : (reg.map Prod.fst).Nodup) (hc : c ≠ "")
    (h : dictGet reg c = some ⟨fid, FutState.pending⟩) :
    dictGet (timeoutWaiter reg c) c = some ⟨fid, FutState.cancelled⟩ ∧
    (handle_portfolio_updated (timeoutWaiter reg c) (some c)).2
      = ResolveAction.skippedDone fid ∧
    dictGet (handle_portfolio_updated (timeoutWaiter reg c) (some c)).1 c = none := by
  have hget := dictGet_timeoutWaiter_of_pending reg c fid h
  have hnd2 : ((timeoutWaiter reg c).map Prod.fst).Nodup := by
    rw [timeoutWaiter_keys]
    exact hnd
  rcases hdp : dictPop (timeoutWaiter reg c) c with ⟨fo, reg2⟩
  have hfo : fo = some ⟨fid, FutState.cancelled⟩ := by
    have hp := dictPop_fst_of_get_some _ c _ hget
    rw [hdp] at hp
    exact hp
  subst hfo
  have hh : handle_portfolio_updated (timeoutWaiter reg c) (some c)
      = (reg2, ResolveAction.skippedDone fid) := by
    simp only [handle_portfolio_updated, if_neg hc, hdp]
    rfl
  refine ⟨hget, ?_, ?_⟩
  · rw [hh]
  · rw [hh]
    have hn := dictGet_dictPop_snd (timeoutWaiter reg c) c hnd2
    rw [hdp] at hn
    exact hn

theorem C1_witness :
    ((([("c", (⟨0, FutState.pending⟩ : Waiter))] : Registry).map Prod.fst).Nodup ∧
      "c" ≠ "" ∧
      dictGet [("c", (⟨0, FutState.pending⟩ : Waiter))] "c"
        = some ⟨0, FutState.pending⟩) ∧
    (dictGet (timeoutWaiter [("c", (⟨0, FutState.pending⟩ : Waiter))] "c") "c"
        = some ⟨0, FutState.cancelled⟩ ∧
      (handle_portfolio_updated
          (timeoutWaiter [("c", (⟨0, FutState.pending⟩ : Waiter))] "c") (some "c")).2
        = ResolveAction.skippedDone 0 ∧
      dictGet (handle_portfolio_updated
          (timeoutWaiter [("c", (⟨0, FutState.pending⟩ : Waiter))] "c") (some "c")).1 "c"
        = none) :=
  ⟨⟨by decide, by decide, by decide⟩,
    C1_timeout_leaves_waiter _ "c" 0 (by decide) (by decide) (by decide)⟩

/-- C6 counterexample: registering a waiter twice under the same correlation
id "c" (first future id 0, then future id 1): the second registration is a
plain dict store, so it silently replaces the first waiter instead of failing
with a DuplicateCorrelation error — the registry now holds future 1 and
future 0 is unreachable (leaked). -/
theorem C6_counterexample :
    dictGet (registerWaiter (registerWaiter [] "c" 0) "c" 1) "c"
      = some ⟨1, FutState.pending⟩ ∧
    dictGet (registerWaiter (registerWaiter [] "c" 0) "c" 1) "c"
      ≠ some ⟨0, FutState.pending⟩ := by
  decide

/-- C6 amended: registering a waiter under an already-registered correlation
id silently overwrites the existing waiter (there is no membership check and
`registerWaiter` has no failure outcome): after a second register the registry
is exactly as if the first waiter had never been stored, so the first future
is leaked. -/
theorem C6_register_overwrites (reg : Registry) (c : String) (f0 f1 : Nat) :
    registerWaiter (registerWaiter reg c f0) c f1 = registerWaiter reg c f1 ∧
    dictGet (registerWaiter (registerWaiter reg c f0) c f1) c
      = some ⟨f1, FutState.pending⟩ :=
  ⟨dictSet_dictSet reg c _ _, dictGet_dictSet_self _ c _⟩

/-- A position dict as carried in portfolio payloads and rows
(shared/schemas-free: services pass plain dicts). Absent or null JSON fields
are `none`; floats are modelled as rationals. -/
structure Position where
  ticker : Option String
  figi : Option String
  quantity : Option Rat
  expected_yield : Option Rat
  expected_yield_percent : Option Rat
  market : Option String
  currency : Option String
  name : Option String
  deriving DecidableEq, Repr

/-- The ruble cash tickers excluded everywhere:
`{"RUB","RUB000UTSTOM"}`. -/
def RUB_TICKERS : List String := ["RUB", "RUB000UTSTOM"]

/-- Helper `_filter_tickers` of summary_service/main.py (lines 21-22):
keep truthy tickers outside the ruble set. -/
def filter_tickers (raw : List String) : List String :=
  raw.filter fun t => !(t == "") && !(RUB_TICKERS.contains t)

/-- The ticker list comprehension used by the gateway and the scheduler
(`[p.get("ticker") for p in positions if p.get("ticker") and p.get("ticker")
not in {"RUB","RUB000UTSTOM"}]`). -/
def tickers_of_positions (positions : List Position) : List String :=
  positions.filterMap fun p =>
    match p.ticker with
    | some t => if t ≠ "" ∧ t ∉ RUB_TICKERS then some t else none
    | none => none

/-- An envelope as handed to `send_and_wait(topic, value, key=...)`:
the topic, the optional partition key (the encoded string, modelled
unencoded), and the JSON payload. -/
structure Published (α : Type) where
  topic : Topic
  key : Option String
  value : α
  deriving DecidableEq, Repr

/-- Payload of a `summary.request` command (shared/schemas.py
`SummaryRequest`). -/
structure SummaryRequestMsg where
  user_id : Nat
  tickers : List String
  deriving DecidableEq, Repr

/-- Payload of a `news.request` command (plain dict built in `show_news`). -/
structure NewsRequestMsg where
  user_id : Option Nat
  tickers : List String
  correlation_id : Option String
  deriving DecidableEq, Repr

/-- Payload of a `quotes.request` command (plain dict built in
`show_quotes`). -/
structure QuotesRequestMsg where
  user_id : Nat
  figis : List String
  token : Option String
  deriving DecidableEq, Repr

/-- Payload of a `portfolio.request` command (plain dict built in
`accounts_done` / `show_portfolio`). -/
structure PortfolioRequestMsg where
  user_id : Option Nat
  accounts : List String
  correlation_id : Option String
  token : Option String
  deriving DecidableEq, Repr

/-- The `summary.request` publish of the "Сводка" handler
(bot_gateway/main.py lines 83-89): `prod.send_and_wait(SUMMARY_REQUEST, req)`
— no `key=` argument is passed. -/
def summary_request_publish (userId : Nat) (tickers : List String) :
    Published SummaryRequestMsg :=
  { topic := Topic.summaryRequest
    key := none
    value := { user_id := userId, tickers := tickers.take 20 } }

/-- The `news.request` publish of `show_news` (bot_gateway/main.py
lines 113-118), keyed by `str(user_id).encode()` and carrying a fresh
correlation id. -/
def show_news_publish (userId : Nat) (tickers : List String) (corrId : String) :
    Published NewsRequestMsg :=
  { topic := Topic.newsRequest
    key := some (toString userId)
    value := { user_id := some userId, tickers := tickers.take 20
               correlation_id := some corrId } }

/-- The `quotes.request` publish of `show_quotes` (bot_gateway/main.py
lines 497-503), keyed by the user id. -/
def show_quotes_publish (userId : Nat) (figis : List String) (token : Option String) :
    Published QuotesRequestMsg :=
  { topic := Topic.quotesRequest
    key := some (toString userId)
    value := { user_id := userId, figis := figis, token := token } }

/-- The `portfolio.request` publish of `accounts_done` and `show_portfolio`
(bot_gateway/main.py lines 263-269 and 390-394), keyed by the user id and
carrying a fresh correlation id and the stored token. -/
def portfolio_request_publish (userId : Nat) (accounts : List String)
    (corrId : String) (token : String) : Published PortfolioRequestMsg :=
  { topic := Topic.portfolioRequest
    key := some (toString userId)
    value := { user_id := some userId, accounts := accounts
               correlation_id := some corrId, token := some token } }

/-- The `summary.request` publish of the scheduler tick
(scheduler_service/main.py line 34): `prod.send_and_wait(SUMMARY_REQUEST,
{"user_id": uid, "tickers": tickers[:20]})` — again without a `key=`
argument. -/
def scheduler_tick_publish (userId : Nat) (tickers : List String) :
    Published SummaryRequestMsg :=
  { topic := Topic.summaryRequest
    key := none
    value := { user_id := userId, tickers := tickers.take 20 } }

/-- C4 counterexample: the summary command — from the "Сводка" handler as
well as from the scheduler tick — is published without any message key, so it
does not carry the user identifier as its key (here user 42). -/
theorem C4_counterexample :
    (summary_request_publish 42 ["SBER"]).key ≠ some (toString 42) ∧
    (scheduler_tick_publish 42 ["SBER"]).key ≠ some (toString 42) ∧
    (summary_request_publish 42 ["SBER"]).key = none ∧
    (scheduler_tick_publish 42 ["SBER"]).key = none := by
  refine ⟨?_, ?_, rfl, rfl⟩ <;> decide

/-- C4 amended: the news, quotes and portfolio command envelopes carry the
user identifier as message key, but the summary command envelopes (whether
issued by the user interaction or by the scheduler tick) are published with
no key at all. -/
theorem C4_command_keys (u : Nat) (tks figis accounts : List String)
    (c : String) (tok? : Option String) (tok : String) :
    (show_news_publish u tks c).key = some (toString u) ∧
    (show_quotes_publish u figis tok?).key = some (toString u) ∧
    (portfolio_request_publish u accounts c tok).key = some (toString u) ∧
    (summary_request_publish u tks).key = none ∧
    (scheduler_tick_publish u tks).key = none :=
  ⟨rfl, rfl, rfl, rfl, rfl⟩

/-- Payload of a `portfolio.updated` completion event (plain dict built in
portfolio_service/main.py lines 33-41). -/
structure PortfolioUpdatedMsg where
  user_id : Option Nat
  positions : List Position
  correlation_id : Option String
  deriving DecidableEq, Repr

/-- One iteration of the portfolio_service `worker` loop
(portfolio_service/main.py lines 20-41) on a received command. The Tinkoff
fetch `client.get_portfolio(accounts)` is an external network call, passed in
as `fetch`; on any exception the worker substitutes an empty portfolio. The
completion carries the request's user id, the fetched positions, and
`correlation_id` copied straight from the request. -/
def portfolio_worker_step (msg : PortfolioRequestMsg)
    (fetch : Except Unit (List Position)) : Published PortfolioUpdatedMsg :=
  let fetched := match fetch with
    | Except.ok ps => ps
    | Except.error _ => []
  { topic := Topic.portfolioUpdated
    key := if natTruthy msg.user_id then some (toString (msg.user_id.getD 0)) else none
    value := { user_id := msg.user_id, positions := fetched
               correlation_id := msg.correlation_id } }

/-- One chunk of rendered summary/news output (shared/schemas.py
`SummaryChunk`). -/
structure SummaryChunk where
  ticker : String
  html : String
  deriving DecidableEq, Repr

/-- Payload of a message on the outbound notification topic
(shared/schemas.py `NotificationOutbound`): a user id and the rendered
chunks. It has no correlation field. -/
structure NotificationOutboundMsg where
  user_id : Nat
  items : List SummaryChunk
  deriving DecidableEq, Repr

/-- Reading `correlation_id` off a published notification payload
(`payload.get("correlation_id")`): the dict built by `_send_notifications`
(summary_service/main.py lines 31-35) has only the keys `user_id` and
`items`, so the lookup always yields `None`. -/
def notif_correlation_id (_ : NotificationOutboundMsg) : Option String := none

/-- One iteration of `_handle_news` (summary_service/main.py lines 68-90) on
a received `news.request`. The per-ticker work — the Perplexity call, the
fallback link block on LLM error, citation rewriting and `chunk_text` — is an
external-I/O/pure-formatting pipeline abstracted as `perTicker`; its output
list is accumulated over the filtered tickers exactly as `items` is. The
publish (via `_send_notifications`) happens only for a truthy user id and a
nonempty item list, is keyed by the user id, and its payload carries no
correlation id. -/
def handle_news_step (msg : NewsRequestMsg)
    (perTicker : String → List SummaryChunk) :
    Option (Published NotificationOutboundMsg) :=
  let tickers := filter_tickers msg.tickers
  if ¬ natTruthy msg.user_id ∨ tickers = [] then none
  else
    let uid := msg.user_id.getD 0
    let items := (tickers.map perTicker).flatten
    if items = [] then none
    else some { topic := Topic.notificationsOutbound
                key := some (toString uid)
                value := { user_id := uid, items := items } }

/-- Concrete news request used to exercise `handle_news_step`: user 42 asks
for news on SBER with correlation id "c1". -/
def newsReqEx : NewsRequestMsg :=
  { user_id := some 42, tickers := ["SBER"], correlation_id := some "c1" }

/-- Concrete per-ticker pipeline result: one chunk per ticker. -/
def perTickerEx : String → List SummaryChunk :=
  fun t => [{ ticker := t, html := "n" }]

/-- C2 counterexample: the news workflow's command carries correlation id
"c1", the handler publishes a completion, but that completion's payload
contains no correlation id at all (reading it back gives `None`, not "c1"). -/
theorem C2_counterexample :
    newsReqEx.correlation_id = some "c1" ∧
    (handle_news_step newsReqEx perTickerEx).isSome = true ∧
    (handle_news_step newsReqEx perTickerEx).map
        (fun out => notif_correlation_id out.value) = some none := by
  refine ⟨rfl, ?_, ?_⟩ <;> decide

/-- C2 amended: the portfolio-refresh consumer copies the triggering
command's correlation id verbatim into its completion, but the news
consumer's completion payload never contains a correlation id — the id is
dropped. -/
theorem C2_correlation_roundtrip :
    (∀ (msg : PortfolioRequestMsg) (fetch : Except Unit (List Position)),
      (portfolio_worker_step msg fetch).value.correlation_id = msg.correlation_id) ∧
    (∀ (msg : NewsRequestMsg) (perTicker : String → List SummaryChunk)
        (out : Published NotificationOutboundMsg),
      handle_news_step msg perTicker = some out →
      notif_correlation_id out.value = none) :=
  ⟨fun _ _ => rfl, fun _ _ _ _ => rfl⟩

theorem C2_witness :
    (portfolio_worker_step
        { user_id := some 7, accounts := ["Acc"], correlation_id := some "c9"
          token := some "tok" } (Except.ok [])).value.correlation_id
      = some "c9" ∧
    notif_correlation_id { user_id := 42, items := [{ ticker := "SBER", html := "n" }] }
      = none :=
  ⟨C2_correlation_roundtrip.1
      { user_id := some 7, accounts := ["Acc"], correlation_id := some "c9"
        token := some "tok" } (Except.ok []),
    C2_correlation_roundtrip.2 newsReqEx perTickerEx
      { topic := Topic.notificationsOutbound, key := some (toString 42)
        value := { user_id := 42, items := [{ ticker := "SBER", html := "n" }] } }
      (by decide)⟩

/-- The body of the scheduler's `tick_once` loop over due users
(scheduler_service/main.py lines 26-36). For each user the tick fetches the
user's portfolio over HTTP (an external call modelled by `env`; a `.error`
means the fetch or the subsequent send raised), derives the ticker list, and
publishes a `summary.request` when tickers remain. There is no per-user
exception handling inside the loop, so a raising user ends the iteration:
the function returns the commands actually published and whether the tick
raised (the exception then propagates out of `tick_once` into
`run_forever`'s `except Exception: pass`). -/
def tick_once_run (env : Nat → Except Unit (List Position)) :
    List Nat → List (Published SummaryRequestMsg) × Bool
  | [] => ([], false)
  | uid :: rest =>
    match env uid with
    | Except.error _ => ([], true)
    | Except.ok positions =>
      let tickers := tickers_of_positions positions
      if tickers = [] then tick_once_run env rest
      else
        let r := tick_once_run env rest
        (scheduler_tick_publish uid tickers :: r.1, r.2)

/-- A one-position portfolio holding SBER, used in scheduler scenarios. -/
def posSber : Position :=
  { ticker := some "SBER", figi := some "F1", quantity := some 1
    expected_yield := none, expected_yield_percent := none
    market := none, currency := none, name := none }

/-- Environment for the C5 scenario: users 1 and 3 have an SBER portfolio,
fetching user 2's portfolio raises. -/
def tickEnvEx : Nat → Except Unit (List Position) :=
  fun u => if u = 2 then Except.error () else Except.ok [posSber]

/-- C5 counterexample: users {1,2,3} are due and processing user 2 raises.
Contrary to the claim, user 3 does NOT receive a command — only user 1 (the
one processed before the failure) does, because the loop has no per-user
exception handling and the exception aborts the remainder of the tick. -/
theorem C5_counterexample :
    ((tick_once_run tickEnvEx [1, 2, 3]).1.map fun p => p.value.user_id) = [1] ∧
    3 ∉ ((tick_once_run tickEnvEx [1, 2, 3]).1.map fun p => p.value.user_id) ∧
    (tick_once_run tickEnvEx [1, 2, 3]).2 = true := by
  refine ⟨?_, ?_, ?_⟩ <;> decide

/-- C5 amended: within a tick, an exception while processing one due user
aborts the remainder of the tick: exactly the users before the failing one
are processed (and receive their command when they have tickers), every user
after it receives nothing, and the exception propagates out of `tick_once`
(where `run_forever` swallows it before the next tick). -/
theorem C5_tick_aborts_on_failure (env : Nat → Except Unit (List Position))
    (pre post : List Nat) (u : Nat)
    (hpre : ∀ v ∈ pre, ∃ ps, env v = Except.ok ps)
    (hu : env u = Except.error ()) :
    tick_once_run env (pre ++ u :: post) = ((tick_once_run env pre).1, true) := by
  induction pre with
  | nil =>
    simp only [List.nil_append, tick_once_run, hu]
  | cons v vs ih =>
    obtain ⟨ps, hv⟩ := hpre v (List.mem_cons_self v vs)
    have ih2 := ih fun w hw => hpre w (List.mem_cons_of_mem v hw)
    simp only [List.cons_append, tick_once_run, hv]
    by_cases ht : tickers_of_positions ps = []
    · simp only [if_pos ht]
      exact ih2
    · simp only [if_neg ht, List.append_eq, ih2]

theorem C5_witness :
    tick_once_run tickEnvEx ([1] ++ 2 :: [3])
      = ((tick_once_run tickEnvEx [1]).1, true) :=
  C5_tick_aborts_on_failure tickEnvEx [1] [3] 2
    (by
      intro v hv
      have hv1 : v = 1 := by simpa using hv
      subst hv1
      exact ⟨[posSber], rfl⟩)
    rfl

/-- Outcome of the bounded `asyncio.wait_for(..., timeout=15.0)`: the future
resolved in time, or the deadline passed (`TimeoutError`, swallowed by the
surrounding `except Exception: pass`). -/
inductive WaitOutcome where
  | completed
  | timedOut
  deriving DecidableEq, Repr

/-- An observable step of the `show_portfolio` handler. -/
inductive GwAction where
  | registerW (corrId : String)
  | publishCmd (topic : Topic) (key : Option String)
  | awaitCompletion (corrId : String) (outcome : WaitOutcome)
  | render (userId : Nat)
  deriving DecidableEq, Repr

/-- Python `p.get("ticker") or "?"`: `None` and the empty string fall back to
the default. -/
def pyOrStr (s : Option String) (dflt : String) : String :=
  match s with
  | some t => if t = "" then dflt else t
  | none => dflt

/-- The position grouping of `render_and_send_portfolio`
(bot_gateway/main.py lines 296-312): each fetched position goes to the ruble
block when its ticker (defaulted to "?") is in the ruble set, otherwise to
the securities block, preserving order. -/
def render_split (positions : List Position) : List Position × List Position :=
  (positions.filter fun p => !(RUB_TICKERS.contains (pyOrStr p.ticker "?")),
   positions.filter fun p => RUB_TICKERS.contains (pyOrStr p.ticker "?"))

/-- The data source of `render_and_send_portfolio`
(bot_gateway/main.py lines 285-312): it re-fetches
`GET /users/{user_id}/portfolio` from the storage service (modelled by
`store`) and derives the displayed blocks from that snapshot alone; the
per-position chart-stats HTTP calls and HTML assembly are external I/O over
the same groups. No in-memory completion payload is an input. -/
def render_and_send_portfolio (store : Nat → List Position) (userId : Nat) :
    List Position × List Position :=
  render_split (store userId)

/-- The `show_portfolio` handler (bot_gateway/main.py lines 376-410) as its
sequence of observable steps. With selected accounts and a truthy token it
registers a waiter, publishes the keyed `portfolio.request`, awaits the
correlated completion with the bounded 15-second wait (either outcome), and
renders; otherwise it renders immediately. The `try/except` layers make the
final render unconditional. -/
def show_portfolio (userId : Nat) (accounts : List String)
    (token : Option String) (corrId : String) (outcome : WaitOutcome) :
    List GwAction :=
  if accounts ≠ [] ∧ strTruthy token then
    [GwAction.registerW corrId,
     GwAction.publishCmd Topic.portfolioRequest (some (toString userId)),
     GwAction.awaitCompletion corrId outcome,
     GwAction.render userId]
  else
    [GwAction.render userId]

/-- C7: `show_portfolio` always ends by invoking the fallback renderer for
the user — after the await, under either outcome (resolved or timed out), and
immediately (as the only step) when no command was issued because accounts or
token are missing — and the renderer's output is a function of the persisted
portfolio state for that user alone: two stores agreeing on the user render
identically, regardless of any in-memory completion payload. -/
theorem C7_render_always_from_store (userId : Nat) (accounts : List String)
    (token : Option String) (corrId : String) (outcome : WaitOutcome)
    (s1 s2 : Nat → List Position) (hs : s1 userId = s2 userId) :
    (show_portfolio userId accounts token corrId outcome).getLast?
      = some (GwAction.render userId) ∧
    (¬(accounts ≠ [] ∧ strTruthy token = true) →
      show_portfolio userId accounts token corrId outcome
        = [GwAction.render userId]) ∧
    render_and_send_portfolio s1 userId = render_and_send_portfolio s2 userId := by
  refine ⟨?_, ?_, ?_⟩
  · by_cases h : accounts ≠ [] ∧ strTruthy token
    · simp [show_portfolio, h]
    · simp [show_portfolio, h]
  · intro h
    simp only [show_portfolio, if_neg h]
  · unfold render_and_send_portfolio
    rw [hs]

theorem C7_witness :
    ((fun _ => [posSber] : Nat → List Position) 7
        = (fun _ => [posSber] : Nat → List Position) 7) ∧
    ((show_portfolio 7 [] none "c" WaitOutcome.timedOut).getLast?
        = some (GwAction.render 7) ∧
      (¬(([] : List String) ≠ [] ∧ strTruthy none = true) →
        show_portfolio 7 [] none "c" WaitOutcome.timedOut = [GwAction.render 7]) ∧
      render_and_send_portfolio (fun _ => [posSber]) 7
        = render_and_send_portfolio (fun _ => [posSber]) 7) :=
  ⟨rfl, C7_render_always_from_store 7 [] none "c" WaitOutcome.timedOut
    (fun _ => [posSber]) (fun _ => [posSber]) rfl⟩

/-- How a `create_producer` / `create_consumer` call ends
(shared/messaging/kafka.py lines 12-31 and 34-54). -/
inductive ClientResult where
  | started (attempt : Nat)
  | unstartedHandle
  | raised (err : Nat)
  deriving DecidableEq, Repr

/-- The sleep taken after a failed start attempt (0-based `attempt`):
`await asyncio.sleep(backoff_sec * (attempt + 1))`, in milliseconds with the
default `backoff_sec = 0.5` giving 500 ms. -/
def retry_delay_ms (backoffMs : Nat) (attempt : Nat) : Nat :=
  backoffMs * (attempt + 1)

/-- The shared retry loop of `create_producer` and `create_consumer`
(shared/messaging/kafka.py lines 19-31 and 43-54): up to `n` remaining
attempts starting at index `attempt`, `env i = none` meaning `start()`
succeeded on attempt `i` and `env i = some e` that it raised error `e`
(errors as opaque codes). Each failure records the error, sleeps the linear
backoff, and continues; after the loop the recorded last error is re-raised,
and only when no attempt ever ran is the unstarted client object returned.
Returns the outcome and the list of sleeps performed. -/
def kafka_start_loop (env : Nat → Option Nat) (backoffMs : Nat) :
    Nat → Nat → Option Nat → ClientResult × List Nat
  | 0, _, lastErr =>
    (match lastErr with
     | some e => ClientResult.raised e
     | none => ClientResult.unstartedHandle, [])
  | n + 1, attempt, _ =>
    match env attempt with
    | none => (ClientResult.started attempt, [])
    | some e =>
      let r := kafka_start_loop env backoffMs n (attempt + 1) (some e)
      (r.1, retry_delay_ms backoffMs attempt :: r.2)

/-- Run of `create_producer` with the default `retries=20, backoff_sec=0.5`
(shared/messaging/kafka.py line 12). -/
def create_producer_run (env : Nat → Option Nat) : ClientResult × List Nat :=
  kafka_start_loop env 500 20 0 none

/-- Run of `create_consumer` with the default `retries=20, backoff_sec=0.5`
(shared/messaging/kafka.py line 34): the identical retry loop around
`consumer.start()`. -/
def create_consumer_run (env : Nat → Option Nat) : ClientResult × List Nat :=
  kafka_start_loop env 500 20 0 none

/-- Environment in which the bus is never reachable: attempt `i` raises
error code `i`. -/
def envAllFail : Nat → Option Nat := fun i => some i

/-- C8 counterexample: with the bus unreachable the first three sleeps are
500 ms, 1000 ms, 1500 ms. A fixed-multiplier (exponential) backoff would make
them geometric, i.e. 1000·1000 = 500·1500 — which fails: the delay grows by a
fixed increment (`backoff_sec * (attempt + 1)`), not a fixed multiplier. -/
theorem C8_counterexample :
    (create_producer_run envAllFail).2.take 3 = [500, 1000, 1500] ∧
    ¬(1000 * 1000 = 500 * 1500) := by
  refine ⟨?_, ?_⟩ <;> decide

theorem kafka_start_loop_all_fail (env : Nat → Option Nat) (errAt : Nat → Nat)
    (b : Nat) :
    ∀ (n attempt : Nat) (le : Option Nat),
      0 < n → (∀ i, i < n → env (attempt + i) = some (errAt (attempt + i))) →
      kafka_start_loop env b n attempt le
        = (ClientResult.raised (errAt (attempt + n - 1)),
           (List.range' attempt n).map fun i => b * (i + 1)) := by
  intro n
  induction n with
  | zero => intro attempt le h; exact absurd h (by simp)
  | succ m ih =>
    intro attempt le _ hall
    have h0 : env attempt = some (errAt attempt) := by
      simpa using hall 0 (Nat.succ_pos m)
    rcases Nat.eq_zero_or_pos m with hm | hm
    · subst hm
      simp only [kafka_start_loop, h0, retry_delay_ms]
      rfl
    · have hall2 : ∀ i, i < m → env (attempt + 1 + i) = some (errAt (attempt + 1 + i)) := by
        intro i hi
        have := hall (i + 1) (Nat.succ_lt_succ hi)
        rwa [show attempt + (i + 1) = attempt + 1 + i by omega] at this
      have hrec := ih (attempt + 1) (some (errAt attempt)) hm hall2
      simp only [kafka_start_loop, h0, hrec, retry_delay_ms]
      refine congrArg₂ Prod.mk ?_ ?_
      · exact congrArg (ClientResult.raised ∘ errAt) (by omega)
      · rw [List.range'_succ]
        rfl

/-- C8 amended: bus connection setup (producer and consumer creation alike)
retries `client.start()` with bounded LINEAR backoff — the sleep after the
i-th failed attempt is `0.5 s · (i+1)` — capped at 20 attempts, and when
every attempt has failed it re-raises the error of the last attempt to the
caller instead of swallowing it and returning a handle. -/
theorem C8_retry_exhaustion_raises (env : Nat → Option Nat) (errAt : Nat → Nat)
    (h : ∀ i, i < 20 → env i = some (errAt i)) :
    create_producer_run env
        = (ClientResult.raised (errAt 19),
           (List.range' 0 20).map fun i => 500 * (i + 1)) ∧
    create_consumer_run env
        = (ClientResult.raised (errAt 19),
           (List.range' 0 20).map fun i => 500 * (i + 1)) := by
  have key := kafka_start_loop_all_fail env errAt 500 20 0 none (by omega)
    (by intro i hi; simpa using h i hi)
  exact ⟨key, key⟩

theorem C8_witness :
    create_producer_run envAllFail
        = (ClientResult.raised 19, (List.range' 0 20).map fun i => 500 * (i + 1)) ∧
    create_consumer_run envAllFail
        = (ClientResult.raised 19, (List.range' 0 20).map fun i => 500 * (i + 1)) :=
  C8_retry_exhaustion_raises envAllFail (fun i => i) (fun _ _ => rfl)

/-- A row of the `portfolio` table (storage_service/main.py lines 48-60),
primary key `(user_id, ticker)`. -/
structure PortfolioRow where
  user_id : Nat
  ticker : String
  figi : Option String
  quantity : Rat
  expected_yield : Option Rat
  expected_yield_percent : Option Rat
  market : Option String
  currency : Option String
  name : Option String
  deriving DecidableEq, Repr

/-- The per-ticker accumulator `agg[t]` of `write_rows`
(storage_service/main.py lines 280-308). -/
structure AggEntry where
  quantity : Rat
  figi : Option String
  expected_yield : Option Rat
  expected_yield_percent : Option Rat
  market : Option String
  currency : Option String
  name : Option String
  deriving DecidableEq, Repr

/-- One iteration of the aggregation loop of `write_rows`
(storage_service/main.py lines 281-308): skip falsy tickers; on a repeated
ticker add the quantity, add `expected_yield` onto the (`or 0.0`-defaulted)
running sum when present, and overwrite `expected_yield_percent` with the
latest value; on a first occurrence store the position's fields. The source
file has an indentation slip here — the `else:` branch's body (lines 300-308)
is dedented out of the block, which makes the module fail to import — so this
definition follows the evident intended indentation, with the first-occurrence
assignment as the `else` body. -/
def agg_insert (agg : List (String × AggEntry)) (p : Position) :
    List (String × AggEntry) :=
  match p.ticker with
  | none => agg
  | some t =>
    if t = "" then agg
    else
      let qty := p.quantity.getD 0
      match dictGet agg t with
      | some e =>
        let e1 := { e with quantity := e.quantity + qty }
        let e2 := match p.expected_yield with
          | some ey => { e1 with expected_yield := some (e1.expected_yield.getD 0 + ey) }
          | none => e1
        let e3 := match p.expected_yield_percent with
          | some eyp => { e2 with expected_yield_percent := some eyp }
          | none => e2
        dictSet agg t e3
      | none =>
        dictSet agg t
          { quantity := qty, figi := p.figi, expected_yield := p.expected_yield
            expected_yield_percent := p.expected_yield_percent
            market := p.market, currency := p.currency, name := p.name }

/-- The rows inserted by `write_rows` (storage_service/main.py
lines 309-324): the aggregation dict converted to rows under the event's
user id, in insertion order. -/
def write_rows (userId : Nat) (positions : List Position) : List PortfolioRow :=
  (positions.foldl agg_insert []).map fun tv =>
    { user_id := userId, ticker := tv.1, figi := tv.2.figi
      quantity := tv.2.quantity, expected_yield := tv.2.expected_yield
      expected_yield_percent := tv.2.expected_yield_percent
      market := tv.2.market, currency := tv.2.currency, name := tv.2.name }

/-- Processing one `portfolio.updated` event in `consume_portfolio_updates`
(storage_service/main.py lines 268-332), acting on the `portfolio` table
modelled as a list of rows: skip events without a truthy user id, otherwise
delete every row of that user and insert the aggregated rows. -/
def consume_portfolio_updated_step (db : List PortfolioRow)
    (ev : PortfolioUpdatedMsg) : List PortfolioRow :=
  if natTruthy ev.user_id then
    let uid := ev.user_id.getD 0
    (db.filter fun r => !(r.user_id == uid)) ++ write_rows uid ev.positions
  else db

theorem write_rows_user (userId : Nat) (positions : List Position)
    (r : PortfolioRow) (h : r ∈ write_rows userId positions) :
    r.user_id = userId := by
  unfold write_rows at h
  obtain ⟨tv, _, rfl⟩ := List.mem_map.mp h
  rfl

/-- C9: the intended `write_rows` semantics replaces the user's stored
portfolio wholesale (delete every row under the user key, then insert the
positions aggregated by ticker), so processing the same event twice leaves
the table exactly as processing it once. This is proved of the evident
intended code: the committed source cannot run at all, because the `else:`
body inside the aggregation loop is dedented (IndentationError at
storage_service/main.py line 300), so importing the module fails before any
event is consumed. -/
theorem C9_replace_is_idempotent (db : List PortfolioRow) (ev : PortfolioUpdatedMsg) :
    consume_portfolio_updated_step (consume_portfolio_updated_step db ev) ev
      = consume_portfolio_updated_step db ev := by
  unfold consume_portfolio_updated_step
  by_cases h : natTruthy ev.user_id
  · simp only [h, if_true]
    rw [List.filter_append]
    have h1 : (List.filter (fun r => !(r.user_id == ev.user_id.getD 0))
          (List.filter (fun r => !(r.user_id == ev.user_id.getD 0)) db))
        = List.filter (fun r => !(r.user_id == ev.user_id.getD 0)) db := by
      apply List.filter_eq_self.mpr
      intro a ha
      exact (List.mem_filter.mp ha).2
    have h2 : List.filter (fun r => !(r.user_id == ev.user_id.getD 0))
          (write_rows (ev.user_id.getD 0) ev.positions) = [] := by
      rw [List.filter_eq_nil_iff]
      intro a ha
      have := write_rows_user (ev.user_id.getD 0) ev.positions a ha
      simp [this]
    rw [h1, h2, List.append_nil]
  · simp only [if_neg h]

/-- Python `text.split("\n")` on a string modelled as its character list:
always at least one (possibly empty) piece, a new piece after every
newline. -/
def splitNl : List Char → List (List Char)
  | [] => [[]]
  | ch :: rest =>
    if ch = '\n' then [] :: splitNl rest
    else
      match splitNl rest with
      | [] => [[ch]]
      | l :: ls => (ch :: l) :: ls

/-- Python `"\n".join(pieces)` on character lists. -/
def joinNl : List (List Char) → List Char
  | [] => []
  | [l] => l
  | l :: l2 :: ls => l ++ '\n' :: joinNl (l2 :: ls)

/-- The accumulation loop of `chunk_text` (shared/format/telegram.py
lines 25-38): greedily pack lines into the current chunk (`cur`, with its
running length `curLen` counting each line plus one separator); when a line
would overflow `max_len`, flush the current chunk and start a new one with
that line; after the loop flush the (nonempty) remainder. -/
def chunk_go (maxLen : Nat) : List (List Char) → List (List Char) → Nat → List (List Char)
  | [], cur, _ => if cur = [] then [] else [joinNl cur]
  | line :: rest, cur, curLen =>
    let add := line.length + 1
    if maxLen < curLen + add then
      joinNl cur :: chunk_go maxLen rest [line] add
    else
      chunk_go maxLen rest (cur ++ [line]) (curLen + add)

/-- Top level of `chunk_text(text, max_len)` (shared/format/telegram.py lines 22-39):
the empty string yields `[""]`, otherwise the lines of `text` are packed by
`chunk_go` starting from an empty current chunk. -/
def chunk_text (text : List Char) (maxLen : Nat) : List (List Char) :=
  if text = [] then [[]]
  else chunk_go maxLen (splitNl text) [] 0

/-- Length of the first line of the text. -/
def firstLineLen (text : List Char) : Nat :=
  ((splitNl text).headD []).length

theorem splitNl_ne_nil (s : List Char) : splitNl s ≠ [] := by
  induction s with
  | nil => simp [splitNl]
  | cons ch rest ih =>
    by_cases hc : ch = '\n'
    · simp [splitNl, hc]
    · simp only [splitNl, if_neg hc]
      rcases hr : splitNl rest with _ | ⟨l, ls⟩
      · exact absurd hr ih
      · simp

theorem joinNl_append (xs ys : List (List Char)) (hxs : xs ≠ []) (hys : ys ≠ []) :
    joinNl (xs ++ ys) = joinNl xs ++ '\n' :: joinNl ys := by
  induction xs with
  | nil => exact absurd rfl hxs
  | cons x xs2 ih =>
    rcases xs2 with _ | ⟨x2, xs3⟩
    · rcases ys with _ | ⟨y, ys2⟩
      · exact absurd rfl hys
      · simp [joinNl]
    · have ihh := ih (by simp)
      calc joinNl ((x :: x2 :: xs3) ++ ys)
          = x ++ '\n' :: joinNl ((x2 :: xs3) ++ ys) := rfl
        _ = x ++ '\n' :: (joinNl (x2 :: xs3) ++ '\n' :: joinNl ys) := by rw [ihh]
        _ = (x ++ '\n' :: joinNl (x2 :: xs3)) ++ '\n' :: joinNl ys := by simp
        _ = joinNl (x :: x2 :: xs3) ++ '\n' :: joinNl ys := rfl

theorem joinNl_splitNl (s : List Char) : joinNl (splitNl s) = s := by
  induction s with
  | nil => rfl
  | cons ch rest ih =>
    by_cases hc : ch = '\n'
    · subst hc
      rw [splitNl, if_pos rfl]
      rcases hr : splitNl rest with _ | ⟨l, ls⟩
      · exact absurd hr (splitNl_ne_nil rest)
      · rw [hr] at ih
        rw [joinNl]
        simpa using ih
    · rw [splitNl, if_neg hc]
      rcases hr : splitNl rest with _ | ⟨l, ls⟩
      · exact absurd hr (splitNl_ne_nil rest)
      · rw [hr] at ih
        rcases ls with _ | ⟨l2, ls2⟩
        · simpa [joinNl] using ih
        · rw [joinNl] at ih ⊢
          rw [List.cons_append, ih]

theorem chunk_go_ne_nil (maxLen : Nat) (lines cur : List (List Char)) (curLen : Nat)
    (h : cur ≠ []) : chunk_go maxLen lines cur curLen ≠ [] := by
  induction lines generalizing cur curLen with
  | nil => simp [chunk_go, h]
  | cons line rest ih =>
    rw [chunk_go]
    by_cases hov : maxLen < curLen + (line.length + 1)
    · simp [if_pos hov]
    · simp only [if_neg hov]
      exact ih (cur ++ [line]) _ (by simp)

theorem joinNl_chunk_go (maxLen : Nat) (lines cur : List (List Char)) (curLen : Nat)
    (h : cur ≠ []) :
    joinNl (chunk_go maxLen lines cur curLen) = joinNl (cur ++ lines) := by
  induction lines generalizing cur curLen with
  | nil =>
    show joinNl (if cur = [] then [] else [joinNl cur]) = joinNl (cur ++ [])
    rw [if_neg h, List.append_nil]
    rfl
  | cons line rest ih =>
    rw [chunk_go]
    by_cases hov : maxLen < curLen + (line.length + 1)
    · simp only [if_pos hov]
      rcases hcg : chunk_go maxLen rest [line] (line.length + 1) with _ | ⟨z, zs⟩
      · exact absurd hcg (chunk_go_ne_nil maxLen rest [line] _ (by simp))
      · rw [joinNl, ← hcg, ih [line] _ (by simp)]
        rw [joinNl_append cur (line :: rest) h (by simp)]
        simp
    · simp only [if_neg hov]
      rw [ih (cur ++ [line]) _ (by simp), List.append_assoc]
      simp

/-- C10 counterexample: for `text = "ab"` and `max_len = 1` (positive), the
first line already overflows, so the loop flushes the empty initial chunk:
`chunk_text` returns `["", "ab"]` and joining with a newline yields `"\nab"`,
not `"ab"`. -/
theorem C10_counterexample :
    0 < 1 ∧
    chunk_text ['a', 'b'] 1 = [[], ['a', 'b']] ∧
    joinNl (chunk_text ['a', 'b'] 1) ≠ ['a', 'b'] := by
  refine ⟨by decide, ?_, ?_⟩ <;> decide

/-- C10 amended: joining `chunk_text text max_len` with a newline yields
`text` exactly, except when `text` is nonempty and its first line (plus one
for the separator) already exceeds `max_len`: then the initial flush emits a
spurious empty first chunk and the join is `text` with one extra leading
newline. The empty string still yields the singleton empty chunk. -/
theorem C10_chunk_text_join (text : List Char) (maxLen : Nat) :
    chunk_text [] maxLen = [[]] ∧
    joinNl (chunk_text text maxLen)
      = (if text ≠ [] ∧ maxLen < firstLineLen text + 1
         then '\n' :: text else text) := by
  refine ⟨rfl, ?_⟩
  by_cases htext : text = []
  · subst htext
    simp [chunk_text, joinNl]
  · rw [chunk_text, if_neg htext]
    rcases hsp : splitNl text with _ | ⟨l0, ls⟩
    · exact absurd hsp (splitNl_ne_nil text)
    · have hfl : firstLineLen text = l0.length := by
        rw [firstLineLen, hsp]
        rfl
      rw [chunk_go]
      by_cases hov : maxLen < 0 + (l0.length + 1)
      · simp only [if_pos hov]
        rcases hcg : chunk_go maxLen ls [l0] (l0.length + 1) with _ | ⟨z, zs⟩
        · exact absurd hcg (chunk_go_ne_nil maxLen ls [l0] _ (by simp))
        · rw [joinNl, joinNl, ← hcg, joinNl_chunk_go maxLen ls [l0] _ (by simp)]
          have hj : joinNl ([l0] ++ ls) = text := by
            rw [show ([l0] ++ ls) = splitNl text by rw [hsp]; rfl]
            exact joinNl_splitNl text
          rw [if_pos ⟨htext, by rw [hfl]; omega⟩]
          simp only [List.nil_append]
          rw [hj]
      · simp only [if_neg hov]
        rw [show ([] ++ [l0] : List (List Char)) = [l0] by rfl]
        rw [joinNl_chunk_go maxLen ls [l0] _ (by simp)]
        have hj : joinNl ([l0] ++ ls) = text := by
          rw [show ([l0] ++ ls) = splitNl text by rw [hsp]; rfl]
          exact joinNl_splitNl text
        rw [if_neg ?_, hj]
        intro hcon
        rw [hfl] at hcon
        omega

end TapiBot
